import Mathlib

/-!
# Verification of the breast-cancer-detection backend (`backend/server.py`)

Shallow embedding of the backend's pure logic and of its stateful endpoints
(state passed explicitly as lists of documents, the document store being
modelled as an append/filter list; fallible steps as `Except`).  Machine
integers of the source are Python arbitrary-precision `int`s, so `Int`/`Nat`
are used directly with no wrap-around.  External libraries (`PIL`, the LLM
client, `bcrypt`, `PyJWT`) are modelled at their interface: image decoding and
the AI call are `Except`-valued inputs to the orchestrators, password hashing
is an abstract injective tagging, and JWT signing is a caller-supplied MAC
function whose verification semantics (signature checked, then expiry) follows
the PyJWT contract used by the source.
-/

namespace BreastCancer

/-- `RiskAssessmentRequest` pydantic model of `server.py`: age plus three
boolean risk factors and three optional fields. -/
structure RiskAssessmentRequest where
  age : Int
  family_history : Bool
  previous_biopsies : Bool
  hormone_therapy : Bool
  first_pregnancy_age : Option Int := none
  menstruation_age : Option Int := none
  breast_density : Option String := none
deriving Repr, DecidableEq

/-- The additive risk score of `risk_assessment` (`server.py` lines 259-275),
written exactly as the source's sequence of `if`/`elif` accumulations. -/
def riskScore (d : RiskAssessmentRequest) : Nat :=
  let s : Nat := 0
  let s := if d.age > 50 then s + 3
           else if d.age > 40 then s + 2
           else if d.age > 30 then s + 1
           else s
  let s := if d.family_history then s + 4 else s
  let s := if d.previous_biopsies then s + 3 else s
  let s := if d.hormone_therapy then s + 2 else s
  let s := if d.breast_density = some "dense" then s + 2 else s
  s

/-- Risk-level bucketing of `risk_assessment` (`server.py` lines 278-283). -/
def riskLevelOfScore (score : Nat) : String :=
  if score ≥ 8 then "high"
  else if score ≥ 4 then "moderate"
  else "low"

/-- Risk level returned by the `risk_assessment` endpoint for a given input. -/
def riskAssessmentLevel (d : RiskAssessmentRequest) : String :=
  riskLevelOfScore (riskScore d)

/-- Age-bracket contribution, as the source's `if`/`elif` chain reads. -/
def agePoints (age : Int) : Nat :=
  if age > 50 then 3 else if age > 40 then 2 else if age > 30 then 1 else 0

/-- Reference age schedule following the spec's words: +3 if age > 50, else
+2 if 40 < age ≤ 50, else +1 if 30 < age ≤ 40, else 0 (brackets written as
explicitly mutually exclusive ranges). -/
def specAgePoints (age : Int) : Nat :=
  if 50 < age then 3
  else if 40 < age ∧ age ≤ 50 then 2
  else if 30 < age ∧ age ≤ 40 then 1
  else 0

/-- Reference additive schedule following the spec's words: the age bracket
plus independent +4/+3/+2/+2 bonuses for the four risk factors. -/
def specRiskScore (d : RiskAssessmentRequest) : Nat :=
  specAgePoints d.age
    + (if d.family_history then 4 else 0)
    + (if d.previous_biopsies then 3 else 0)
    + (if d.hormone_therapy then 2 else 0)
    + (if d.breast_density = some "dense" then 2 else 0)

/-- `MedicalHistoryCreate` pydantic model of `server.py`. -/
structure MedicalHistoryCreate where
  age : Int
  family_history : Bool
  previous_biopsies : Bool
  hormone_therapy : Bool
  first_pregnancy_age : Option Int := none
  menstruation_age : Option Int := none
  breast_density : Option String := none
deriving Repr, DecidableEq

/-- A stored `MedicalHistory` document (the `medical_history` collection);
`created_at` modelled as a `Nat` timestamp. -/
structure MedicalHistoryDoc where
  id : String
  user_id : String
  age : Int
  family_history : Bool
  previous_biopsies : Bool
  hormone_therapy : Bool
  first_pregnancy_age : Option Int
  menstruation_age : Option Int
  breast_density : Option String
  created_at : Nat
deriving Repr, DecidableEq

/-- `create_medical_history` (`server.py` lines 168-178): `delete_many` on the
user's records, then `insert_one` of the fresh document built from the request;
the generated `id` and the clock are passed in explicitly.  Returns the new
store and the returned record. -/
def create_medical_history (store : List MedicalHistoryDoc) (uid : String)
    (data : MedicalHistoryCreate) (newId : String) (now : Nat) :
    List MedicalHistoryDoc × MedicalHistoryDoc :=
  let remaining := store.filter (fun doc => !(doc.user_id == uid))
  let doc : MedicalHistoryDoc :=
    { id := newId, user_id := uid, age := data.age,
      family_history := data.family_history,
      previous_biopsies := data.previous_biopsies,
      hormone_therapy := data.hormone_therapy,
      first_pregnancy_age := data.first_pregnancy_age,
      menstruation_age := data.menstruation_age,
      breast_density := data.breast_density,
      created_at := now }
  (remaining ++ [doc], doc)

/-- The records a `find` on `{"user_id": uid}` would return. -/
def recordsFor (store : List MedicalHistoryDoc) (uid : String) :
    List MedicalHistoryDoc :=
  store.filter (fun doc => doc.user_id == uid)

/-- A sequence of `create_medical_history` calls applied to a store: each
operation carries the caller's user id, the request body, the generated id and
the clock value. -/
def createSeq (store : List MedicalHistoryDoc) :
    List (String × MedicalHistoryCreate × String × Nat) → List MedicalHistoryDoc
  | [] => store
  | (uid, data, newId, now) :: rest =>
      createSeq (create_medical_history store uid data newId now).1 rest

/-- A stored `Analysis` document (the `analyses` collection);
`created_at` modelled as a `Nat` timestamp. -/
structure AnalysisDoc where
  id : String
  user_id : String
  analysis_type : String
  result : String
  risk_level : String
  recommendations : List String
  image_data : Option String
  created_at : Nat
deriving Repr, DecidableEq

/-- The body returned by `analyze_image`: `analysis.model_dump(exclude=
{"image_data"})` — every `Analysis` field except the image payload. -/
structure AnalysisResponse where
  id : String
  user_id : String
  analysis_type : String
  result : String
  risk_level : String
  recommendations : List String
  created_at : Nat
deriving Repr, DecidableEq

/-- `model_dump(exclude={"image_data"})` on an `Analysis` document. -/
def responseOf (a : AnalysisDoc) : AnalysisResponse :=
  { id := a.id, user_id := a.user_id, analysis_type := a.analysis_type,
    result := a.result, risk_level := a.risk_level,
    recommendations := a.recommendations, created_at := a.created_at }

/-- Insertion into a list kept in descending `created_at` order (stable: the
new element goes after existing elements with an equal or later timestamp). -/
def insertDesc (a : AnalysisDoc) : List AnalysisDoc → List AnalysisDoc
  | [] => [a]
  | b :: rest =>
      if a.created_at ≤ b.created_at then b :: insertDesc a rest
      else a :: b :: rest

/-- The store's `.sort("created_at", -1)`: a stable sort into descending
`created_at` order. -/
def sortDesc : List AnalysisDoc → List AnalysisDoc
  | [] => []
  | a :: rest => insertDesc a (sortDesc rest)

/-- `get_analyses` (`server.py` lines 337-345): `find({"user_id": user_id})`,
sort by `created_at` descending, `to_list(100)`. -/
def get_analyses (store : List AnalysisDoc) (uid : String) : List AnalysisDoc :=
  (sortDesc (store.filter (fun a => a.user_id == uid))).take 100

/-- `pat` matches at the head of `s`. -/
def matchAt : List Char → List Char → Bool
  | [], _ => true
  | _ :: _, [] => false
  | p :: ps, c :: cs => p == c && matchAt ps cs

/-- `pat` occurs contiguously somewhere in `s` (Python's `pat in s`). -/
def occursIn (pat : List Char) : List Char → Bool
  | [] => matchAt pat []
  | c :: cs => matchAt pat (c :: cs) || occursIn pat cs

/-- Python's `pat in s` on strings. -/
def containsSubstr (s pat : String) : Bool := occursIn pat.data s.data

/-- Python's `str.lower()` restricted to its ASCII action (the scanned
patterns are ASCII). -/
def pyLower (s : String) : String := s.map Char.toLower

/-- Risk-level extraction of `analyze_image` (`server.py` lines 216-223):
case-insensitive substring scan of the AI's free-text reply. -/
def parseImageRiskLevel (ai_response : String) : String :=
  let response_lower := pyLower ai_response
  if containsSubstr response_lower "high risk"
      || containsSubstr response_lower "high-risk" then "high"
  else if containsSubstr response_lower "moderate risk"
      || containsSubstr response_lower "moderate" then "moderate"
  else "low"

/-- The claim's description of that scan: `high` on "high risk"/"high-risk",
else `moderate` on "moderate", else `low`. -/
def specImageRiskLevel (ai_response : String) : String :=
  let response_lower := pyLower ai_response
  if containsSubstr response_lower "high risk"
      || containsSubstr response_lower "high-risk" then "high"
  else if containsSubstr response_lower "moderate" then "moderate"
  else "low"

/-- The fixed recommendation list of `analyze_image` (lines 226-230). -/
def imageRecommendations : List String :=
  ["Consult with a healthcare professional",
   "Schedule a follow-up examination",
   "Maintain regular screening schedule"]

/-- The `Analysis` document built and persisted by `analyze_image`
(lines 233-240): full AI reply, parsed risk level, fixed recommendations, and
`img_base64[:1000]` as the stored image payload. -/
def mkImageAnalysis (uid newId : String) (ai_response img_base64 : String)
    (now : Nat) : AnalysisDoc :=
  { id := newId, user_id := uid, analysis_type := "image",
    result := ai_response, risk_level := parseImageRiskLevel ai_response,
    recommendations := imageRecommendations,
    image_data := some (img_base64.take 1000), created_at := now }

/-- An HTTP error as raised by `HTTPException(status_code, detail)`. -/
structure ApiError where
  status : Nat
  detail : String
deriving Repr, DecidableEq

/-- `analyze_image` (`server.py` lines 186-250).  The two external effects are
passed in as their outcomes: `decodeResult` is the `PIL` decode + PNG
re-encode + base64 step (its `.ok` value the base64 text), `aiResult` the LLM
call.  Any exception in the `try` block is caught and surfaced as a 500 whose
detail wraps the original message; the insert only happens on the full
success path.  Returns the new store and the endpoint outcome. -/
def analyze_image (store : List AnalysisDoc) (uid newId : String)
    (decodeResult : Except String String) (aiResult : Except String String)
    (now : Nat) : List AnalysisDoc × Except ApiError AnalysisResponse :=
  match decodeResult with
  | Except.error e =>
      (store, Except.error ⟨500, "Error analyzing image: " ++ e⟩)
  | Except.ok img_base64 =>
      match aiResult with
      | Except.error e =>
          (store, Except.error ⟨500, "Error analyzing image: " ++ e⟩)
      | Except.ok ai_response =>
          let analysis := mkImageAnalysis uid newId ai_response img_base64 now
          (store ++ [analysis], Except.ok (responseOf analysis))

/-- The recommendation list of `risk_assessment` (lines 307-316): four fixed
items, with two more prepended when the computed level is "high". -/
def riskRecommendations (risk_level : String) : List String :=
  let base := ["Schedule annual mammogram screening",
               "Perform monthly self-examinations",
               "Maintain a healthy lifestyle",
               "Discuss results with your healthcare provider"]
  if risk_level == "high" then
    "Consult with an oncologist immediately" :: "Consider genetic testing" :: base
  else base

/-- Python's `'Yes' if b else 'No'`. -/
def pyYesNo (b : Bool) : String := if b then "Yes" else "No"

/-- Python's `x or 'N/A'` on an optional int inside an f-string: `None` and
the falsy value `0` both render the placeholder. -/
def pyOrIntNA (v : Option Int) : String :=
  match v with
  | none => "N/A"
  | some n => if n = 0 then "N/A" else toString n

/-- Python's `x or 'N/A'` on an optional string inside an f-string: `None`
and the falsy value `""` both render the placeholder. -/
def pyOrStrNA (v : Option String) : String :=
  match v with
  | none => "N/A"
  | some s => if s = "" then "N/A" else s

/-- The prompt `risk_assessment` sends to the AI (lines 292-302), rendered
exactly as the source's f-string. -/
def riskPrompt (d : RiskAssessmentRequest) : String :=
  "Based on the following patient information, provide a detailed breast cancer risk assessment:\n        \nAge: "
    ++ toString d.age
    ++ "\nFamily History: " ++ pyYesNo d.family_history
    ++ "\nPrevious Biopsies: " ++ pyYesNo d.previous_biopsies
    ++ "\nHormone Therapy: " ++ pyYesNo d.hormone_therapy
    ++ "\nFirst Pregnancy Age: " ++ pyOrIntNA d.first_pregnancy_age
    ++ "\nMenstruation Start Age: " ++ pyOrIntNA d.menstruation_age
    ++ "\nBreast Density: " ++ pyOrStrNA d.breast_density
    ++ "\n\nProvide a comprehensive risk analysis with specific recommendations."

/-- The prompt as the claim describes it: each optional field rendered as the
placeholder exactly when it is missing, and as its actual value whenever it
is present. -/
def specRiskPrompt (d : RiskAssessmentRequest) : String :=
  "Based on the following patient information, provide a detailed breast cancer risk assessment:\n        \nAge: "
    ++ toString d.age
    ++ "\nFamily History: " ++ pyYesNo d.family_history
    ++ "\nPrevious Biopsies: " ++ pyYesNo d.previous_biopsies
    ++ "\nHormone Therapy: " ++ pyYesNo d.hormone_therapy
    ++ "\nFirst Pregnancy Age: "
    ++ (match d.first_pregnancy_age with | none => "N/A" | some n => toString n)
    ++ "\nMenstruation Start Age: "
    ++ (match d.menstruation_age with | none => "N/A" | some n => toString n)
    ++ "\nBreast Density: "
    ++ (match d.breast_density with | none => "N/A" | some s => s)
    ++ "\n\nProvide a comprehensive risk analysis with specific recommendations."

/-- Amended rendering rule for an optional integer field: the placeholder
exactly when the field is missing or falsy (the integer 0), its actual value
otherwise. -/
def amendedIntRender (v : Option Int) : String :=
  if v = none ∨ v = some 0 then "N/A" else (v.map toString).getD "N/A"

/-- Amended rendering rule for an optional string field: the placeholder
exactly when the field is missing or falsy (the empty string), its actual
value otherwise. -/
def amendedStrRender (v : Option String) : String :=
  if v = none ∨ v = some "" then "N/A" else v.getD "N/A"

/-- The prompt as amended: each optional field rendered by the amended rule
(placeholder iff missing or falsy). -/
def specRiskPromptAmended (d : RiskAssessmentRequest) : String :=
  "Based on the following patient information, provide a detailed breast cancer risk assessment:\n        \nAge: "
    ++ toString d.age
    ++ "\nFamily History: " ++ pyYesNo d.family_history
    ++ "\nPrevious Biopsies: " ++ pyYesNo d.previous_biopsies
    ++ "\nHormone Therapy: " ++ pyYesNo d.hormone_therapy
    ++ "\nFirst Pregnancy Age: " ++ amendedIntRender d.first_pregnancy_age
    ++ "\nMenstruation Start Age: " ++ amendedIntRender d.menstruation_age
    ++ "\nBreast Density: " ++ amendedStrRender d.breast_density
    ++ "\n\nProvide a comprehensive risk analysis with specific recommendations."

/-- The `Analysis` document built and persisted by `risk_assessment`
(lines 319-325): deterministic score-derived level, AI narrative, level-
dependent recommendations, no image payload. -/
def mkRiskAssessment (uid newId : String) (d : RiskAssessmentRequest)
    (ai_response : String) (now : Nat) : AnalysisDoc :=
  { id := newId, user_id := uid, analysis_type := "risk_assessment",
    result := ai_response, risk_level := riskAssessmentLevel d,
    recommendations := riskRecommendations (riskAssessmentLevel d),
    image_data := none, created_at := now }

/-- `risk_assessment` (`server.py` lines 252-335): the AI call is passed in as
its outcome; any exception is caught and surfaced as a 500 wrapping the
original message; insert and response only on success (the response is the
full `model_dump`, i.e. the document itself). -/
def risk_assessment (store : List AnalysisDoc) (uid newId : String)
    (d : RiskAssessmentRequest) (aiResult : Except String String)
    (now : Nat) : List AnalysisDoc × Except ApiError AnalysisDoc :=
  match aiResult with
  | Except.error e =>
      (store, Except.error ⟨500, "Error in risk assessment: " ++ e⟩)
  | Except.ok ai_response =>
      let analysis := mkRiskAssessment uid newId d ai_response now
      (store ++ [analysis], Except.ok analysis)

/-- A stored user document (the `users` collection). -/
structure UserDoc where
  id : String
  email : String
  full_name : String
  password : String
  created_at : Nat
deriving Repr, DecidableEq

/-- `UserCreate` pydantic model of `server.py`. -/
structure UserCreate where
  email : String
  full_name : String
  password : String
deriving Repr, DecidableEq

/-- Models `passlib`'s bcrypt hashing abstractly as an injective tagging; the
only property the source relies on is that `verify_password p h` succeeds
exactly when `h` is the hash of `p`. -/
def hash_password (p : String) : String := "bcrypt$" ++ p

/-- `verify_password` (`server.py` line 102). -/
def verify_password (plain hashed : String) : Bool :=
  hash_password plain == hashed

/-- `register` (`server.py` lines 127-143): duplicate email is a 400 with no
insert; otherwise the user is stored with the hashed password and returned.
Returns the new store and the outcome. -/
def register (users : List UserDoc) (data : UserCreate) (newId : String)
    (now : Nat) : List UserDoc × Except ApiError UserDoc :=
  if users.any (fun u => u.email == data.email) then
    (users, Except.error ⟨400, "Email already registered"⟩)
  else
    let user : UserDoc :=
      { id := newId, email := data.email, full_name := data.full_name,
        password := hash_password data.password, created_at := now }
    (users ++ [user], Except.ok user)

/-- `login` (`server.py` lines 145-158): unknown email or hash mismatch is a
401; otherwise the stored user is returned. -/
def login (users : List UserDoc) (email password : String) :
    Except ApiError UserDoc :=
  match users.find? (fun u => u.email == email) with
  | none => Except.error ⟨401, "Invalid credentials"⟩
  | some u =>
      if verify_password password u.password then Except.ok u
      else Except.error ⟨401, "Invalid credentials"⟩

/-- The claims carried by a bearer token (`create_token`, lines 105-111). -/
structure TokenPayload where
  user_id : String
  email : String
  exp : Nat
deriving Repr, DecidableEq

/-- A bearer token: its payload plus the signature it carries (which need not
be the genuine MAC — a tampered token carries a mismatched one). -/
structure Token where
  payload : TokenPayload
  sig : Nat
deriving Repr, DecidableEq

/-- The two failures `jwt.decode` can raise here. -/
inductive JwtError where
  | expired
  | invalid
deriving Repr, DecidableEq

/-- Models `jwt.decode(token, secret, algorithms=["HS256"])`: the signature is
checked against the caller's MAC function, then the `exp` claim against the
clock; `ExpiredSignatureError` and `InvalidTokenError` are the two outcomes
the source distinguishes. -/
def jwt_decode (sign : TokenPayload → Nat) (t : Token) (now : Nat) :
    Except JwtError TokenPayload :=
  if t.sig ≠ sign t.payload then Except.error JwtError.invalid
  else if t.payload.exp ≤ now then Except.error JwtError.expired
  else Except.ok t.payload

/-- `get_current_user` (`server.py` lines 113-124): decode the bearer token;
expired → 401 "Token expired", malformed/tampered → 401 "Invalid token", a
falsy `user_id` claim (the empty string) → 401 "Invalid token"; otherwise the
user id. -/
def get_current_user (sign : TokenPayload → Nat) (t : Token) (now : Nat) :
    Except ApiError String :=
  match jwt_decode sign t now with
  | Except.error JwtError.expired => Except.error ⟨401, "Token expired"⟩
  | Except.error JwtError.invalid => Except.error ⟨401, "Invalid token"⟩
  | Except.ok payload =>
      if payload.user_id = "" then Except.error ⟨401, "Invalid token"⟩
      else Except.ok payload.user_id

/-- The per-user uniqueness invariant of the `medical_history` collection. -/
def atMostOnePerUser (store : List MedicalHistoryDoc) : Prop :=
  ∀ u, (recordsFor store u).length ≤ 1

/-- Concrete analysis document (timestamp 5, user "u"). -/
def exDocA : AnalysisDoc :=
  { id := "a", user_id := "u", analysis_type := "image", result := "r1",
    risk_level := "low", recommendations := [], image_data := none,
    created_at := 5 }

/-- Concrete analysis document with the same user and the same timestamp. -/
def exDocB : AnalysisDoc :=
  { id := "b", user_id := "u", analysis_type := "risk_assessment",
    result := "r2", risk_level := "low", recommendations := [],
    image_data := none, created_at := 5 }

/-- Concrete risk-assessment input whose `first_pregnancy_age` is present but
equal to the falsy value 0. -/
def exReq0 : RiskAssessmentRequest :=
  { age := 40, family_history := false, previous_biopsies := false,
    hormone_therapy := false, first_pregnancy_age := some 0,
    menstruation_age := none, breast_density := none }

/-- Concrete risk-assessment input for instantiating universal statements. -/
def exReq1 : RiskAssessmentRequest :=
  { age := 45, family_history := true, previous_biopsies := false,
    hormone_therapy := true, first_pregnancy_age := some 25,
    menstruation_age := some 12, breast_density := some "Dense" }

/-- Concrete stored user (password "pw"). -/
def exUser : UserDoc :=
  { id := "u1", email := "a@example.com", full_name := "A",
    password := hash_password "pw", created_at := 0 }

/-- Concrete registration request reusing `exUser`'s email. -/
def exUserCreate : UserCreate :=
  { email := "a@example.com", full_name := "B", password := "other" }

/-- Concrete token payload expiring at time 10. -/
def exPayload : TokenPayload :=
  { user_id := "u1", email := "a@example.com", exp := 10 }

/-- Concrete MAC function for instantiating token statements. -/
def exSign (p : TokenPayload) : Nat := p.exp + 1

/-- A tampered token: its carried signature differs from the genuine MAC. -/
def exTokenTampered : Token := { payload := exPayload, sig := 0 }

/-- A genuinely signed token (which will be expired at clock 20). -/
def exTokenSigned : Token := { payload := exPayload, sig := exSign exPayload }

/-- The source's accumulating score equals the sum-of-independent-bonuses
form, with the source's `elif` age chain. -/
lemma riskScore_decomp (d : RiskAssessmentRequest) :
    riskScore d =
      agePoints d.age
        + (if d.family_history then 4 else 0)
        + (if d.previous_biopsies then 3 else 0)
        + (if d.hormone_therapy then 2 else 0)
        + (if d.breast_density = some "dense" then 2 else 0) := by
  rcases d with ⟨age, fh, pb, ht, fpa, ma, bd⟩
  by_cases h50 : age > 50 <;> by_cases h40 : age > 40 <;> by_cases h30 : age > 30 <;>
    cases fh <;> cases pb <;> cases ht <;> by_cases hbd : bd = some "dense" <;>
      simp [riskScore, agePoints, h50, h40, h30, hbd]

/-- The source's `elif` age chain equals the spec's exclusive-ranges schedule. -/
lemma agePoints_eq_specAgePoints (age : Int) :
    agePoints age = specAgePoints age := by
  unfold agePoints specAgePoints
  split_ifs <;> omega

lemma riskScore_eq_specRiskScore (d : RiskAssessmentRequest) :
    riskScore d = specRiskScore d := by
  rw [riskScore_decomp, specRiskScore, agePoints_eq_specAgePoints]

lemma riskLevelOfScore_high_iff (s : Nat) :
    riskLevelOfScore s = "high" ↔ 8 ≤ s := by
  unfold riskLevelOfScore
  split_ifs with h1 h2 <;> simp_all

lemma riskLevelOfScore_moderate_iff (s : Nat) :
    riskLevelOfScore s = "moderate" ↔ 4 ≤ s ∧ s < 8 := by
  unfold riskLevelOfScore
  split_ifs with h1 h2 <;> simp_all <;> omega

lemma riskLevelOfScore_low_iff (s : Nat) :
    riskLevelOfScore s = "low" ↔ s < 4 := by
  unfold riskLevelOfScore
  split_ifs with h1 h2 <;> simp_all <;> omega

/-- C1: for every risk-assessment input, the computed risk score equals the
additive reference schedule (age bracket exactly one of {0,1,2,3}, +4 family
history, +3 previous biopsies, +2 hormone therapy, +2 dense density), and the
returned risk level is "high" iff score ≥ 8, "moderate" iff 4 ≤ score < 8,
"low" iff score < 4. -/
theorem risk_assessment_matches_reference_schedule (d : RiskAssessmentRequest) :
    riskScore d = specRiskScore d ∧
    (riskAssessmentLevel d = "high" ↔ 8 ≤ riskScore d) ∧
    (riskAssessmentLevel d = "moderate" ↔ 4 ≤ riskScore d ∧ riskScore d < 8) ∧
    (riskAssessmentLevel d = "low" ↔ riskScore d < 4) ∧
    (agePoints d.age = 0 ∨ agePoints d.age = 1 ∨ agePoints d.age = 2 ∨
      agePoints d.age = 3) := by
  refine ⟨riskScore_eq_specRiskScore d, riskLevelOfScore_high_iff _,
    riskLevelOfScore_moderate_iff _, riskLevelOfScore_low_iff _, ?_⟩
  unfold agePoints
  split_ifs <;> simp

/-- C7: for every input, flipping any one of the four listed risk factors from
absent to present never lowers the total score. -/
theorem risk_score_monotone_in_factors (d : RiskAssessmentRequest)
    (v : Option String) :
    riskScore { d with family_history := false } ≤
      riskScore { d with family_history := true } ∧
    riskScore { d with previous_biopsies := false } ≤
      riskScore { d with previous_biopsies := true } ∧
    riskScore { d with hormone_therapy := false } ≤
      riskScore { d with hormone_therapy := true } ∧
    riskScore { d with breast_density := v } ≤
      riskScore { d with breast_density := some "dense" } := by
  rcases d with ⟨age, fh, pb, ht, fpa, ma, bd⟩
  refine ⟨?_, ?_, ?_, ?_⟩ <;>
    simp only [riskScore_decomp] <;> split_ifs <;> omega

/-- C10: the +2 density bonus is granted exactly for the lowercase string
"dense": for any other value of the field the contribution is 0, so setting
the field to "dense" adds exactly 2 over any non-"dense" value, and "Dense"/
"DENSE" score the same as an absent field. -/
theorem density_bonus_exactly_dense (d : RiskAssessmentRequest)
    (v : Option String) (hv : v ≠ some "dense") :
    riskScore { d with breast_density := some "dense" } =
      riskScore { d with breast_density := v } + 2 ∧
    riskScore { d with breast_density := some "Dense" } =
      riskScore { d with breast_density := none } ∧
    riskScore { d with breast_density := some "DENSE" } =
      riskScore { d with breast_density := none } := by
  rcases d with ⟨age, fh, pb, ht, fpa, ma, bd⟩
  have h1 : (some "Dense" : Option String) ≠ some "dense" := by decide
  have h2 : (some "DENSE" : Option String) ≠ some "dense" := by decide
  have h3 : (none : Option String) ≠ some "dense" := by decide
  refine ⟨?_, ?_, ?_⟩ <;>
    simp only [riskScore_decomp] <;> simp [hv, h1, h2, h3] <;>
      split_ifs <;> omega

/-- Witness for C10 at a concrete input. -/
theorem density_bonus_exactly_dense_witness :
    riskScore { exReq1 with breast_density := some "dense" } =
      riskScore { exReq1 with breast_density := some "Dense" } + 2 ∧
    riskScore { exReq1 with breast_density := some "Dense" } =
      riskScore { exReq1 with breast_density := none } ∧
    riskScore { exReq1 with breast_density := some "DENSE" } =
      riskScore { exReq1 with breast_density := none } :=
  density_bonus_exactly_dense exReq1 (some "Dense") (by decide)

lemma filter_user_of_deleted (store : List MedicalHistoryDoc) (uid : String) :
    (store.filter (fun d => !(d.user_id == uid))).filter
        (fun d => d.user_id == uid) = [] := by
  induction store with
  | nil => rfl
  | cons d rest ih =>
      cases h : d.user_id == uid <;> simp [List.filter_cons, h, ih]

lemma filter_other_user (store : List MedicalHistoryDoc) (uid u : String)
    (h : u ≠ uid) :
    (store.filter (fun d => !(d.user_id == uid))).filter
        (fun d => d.user_id == u) =
      store.filter (fun d => d.user_id == u) := by
  induction store with
  | nil => rfl
  | cons d rest ih =>
      by_cases h1 : d.user_id = uid
      · have h2 : (d.user_id == u) = false := by
          simp [h1]
          exact fun he => h he.symm
        simp [List.filter_cons, h1, h2, ih, Ne.symm h]
      · cases h2 : d.user_id == u <;> simp [List.filter_cons, h1, h2, ih]

lemma recordsFor_create_self (store : List MedicalHistoryDoc) (uid : String)
    (data : MedicalHistoryCreate) (newId : String) (now : Nat) :
    recordsFor (create_medical_history store uid data newId now).1 uid =
      [(create_medical_history store uid data newId now).2] := by
  unfold recordsFor create_medical_history
  simp [List.filter_append, filter_user_of_deleted]

lemma recordsFor_create_other (store : List MedicalHistoryDoc) (uid u : String)
    (data : MedicalHistoryCreate) (newId : String) (now : Nat) (h : u ≠ uid) :
    recordsFor (create_medical_history store uid data newId now).1 u =
      recordsFor store u := by
  unfold recordsFor create_medical_history
  have h2 : (uid == u) = false := by
    simp
    exact fun he => h he.symm
  simp [List.filter_append, filter_other_user store uid u h, h2]

lemma create_preserves_invariant (store : List MedicalHistoryDoc)
    (uid : String) (data : MedicalHistoryCreate) (newId : String) (now : Nat)
    (h : atMostOnePerUser store) :
    atMostOnePerUser (create_medical_history store uid data newId now).1 := by
  intro u
  by_cases hu : u = uid
  · subst hu
    rw [recordsFor_create_self]
    simp
  · rw [recordsFor_create_other store uid u data newId now hu]
    exact h u

lemma createSeq_invariant
    (ops : List (String × MedicalHistoryCreate × String × Nat))
    (store : List MedicalHistoryDoc) (h : atMostOnePerUser store) :
    atMostOnePerUser (createSeq store ops) := by
  induction ops generalizing store with
  | nil => exact h
  | cons op rest ih =>
      rcases op with ⟨uid, data, newId, now⟩
      exact ih _ (create_preserves_invariant store uid data newId now h)

/-- C2: creating a MedicalHistory deletes all prior records for the user and
inserts the new one: after any sequence of creates (from the empty store) at
most one record per user remains; right after a create the user's records are
exactly the returned one; and after a second create for the same user exactly
one record exists, carrying the fields of the most recent call. -/
theorem medical_history_replace_semantics (store : List MedicalHistoryDoc)
    (uid : String) (d1 d2 : MedicalHistoryCreate) (id1 id2 : String)
    (t1 t2 : Nat)
    (ops : List (String × MedicalHistoryCreate × String × Nat)) :
    atMostOnePerUser (createSeq [] ops) ∧
    recordsFor (create_medical_history store uid d1 id1 t1).1 uid =
      [(create_medical_history store uid d1 id1 t1).2] ∧
    recordsFor
        (create_medical_history
          (create_medical_history store uid d1 id1 t1).1 uid d2 id2 t2).1 uid =
      [(create_medical_history
          (create_medical_history store uid d1 id1 t1).1 uid d2 id2 t2).2] ∧
    (create_medical_history
        (create_medical_history store uid d1 id1 t1).1 uid d2 id2 t2).2 =
      { id := id2, user_id := uid, age := d2.age,
        family_history := d2.family_history,
        previous_biopsies := d2.previous_biopsies,
        hormone_therapy := d2.hormone_therapy,
        first_pregnancy_age := d2.first_pregnancy_age,
        menstruation_age := d2.menstruation_age,
        breast_density := d2.breast_density, created_at := t2 } := by
  refine ⟨createSeq_invariant ops [] ?_, recordsFor_create_self _ _ _ _ _,
    recordsFor_create_self _ _ _ _ _, rfl⟩
  intro u
  simp [recordsFor]

lemma mem_insertDesc (x a : AnalysisDoc) (l : List AnalysisDoc) :
    x ∈ insertDesc a l ↔ x = a ∨ x ∈ l := by
  induction l with
  | nil => simp [insertDesc]
  | cons b rest ih =>
      unfold insertDesc
      split_ifs with h
      · simp [ih]
        tauto
      · simp

lemma mem_sortDesc (x : AnalysisDoc) (l : List AnalysisDoc) :
    x ∈ sortDesc l ↔ x ∈ l := by
  induction l with
  | nil => simp [sortDesc]
  | cons a rest ih => simp [sortDesc, mem_insertDesc, ih]

lemma pairwise_insertDesc (a : AnalysisDoc) (l : List AnalysisDoc)
    (h : List.Pairwise (fun x y => y.created_at ≤ x.created_at) l) :
    List.Pairwise (fun x y => y.created_at ≤ x.created_at) (insertDesc a l) := by
  induction l with
  | nil => simp [insertDesc]
  | cons b rest ih =>
      rw [List.pairwise_cons] at h
      obtain ⟨hb, hrest⟩ := h
      unfold insertDesc
      split_ifs with hab
      · refine List.Pairwise.cons ?_ (ih hrest)
        intro x hx
        rcases (mem_insertDesc x a rest).1 hx with rfl | hx'
        · exact hab
        · exact hb x hx'
      · push_neg at hab
        refine List.Pairwise.cons ?_ (List.Pairwise.cons hb hrest)
        intro x hx
        rcases List.mem_cons.1 hx with rfl | hx'
        · exact le_of_lt hab
        · exact le_trans (hb x hx') (le_of_lt hab)

lemma pairwise_sortDesc (l : List AnalysisDoc) :
    List.Pairwise (fun x y => y.created_at ≤ x.created_at) (sortDesc l) := by
  induction l with
  | nil => simp [sortDesc]
  | cons a rest ih => exact pairwise_insertDesc a _ ih

/-- Counterexample to C3 as stated: with two analyses of the same user
sharing a creation timestamp, `get_analyses` returns both but the output is
not *strictly* descending in creation time. -/
theorem get_analyses_not_strictly_sorted :
    (get_analyses [exDocA, exDocB] "u").length = 2 ∧
    ¬ List.Pairwise (fun x y => y.created_at < x.created_at)
        (get_analyses [exDocA, exDocB] "u") := by
  constructor
  · rfl
  · decide

/-- C3 (amended): `get_analyses` returns only the user's records, never more
than 100, sorted by creation time in (non-strictly) descending order. -/
theorem get_analyses_user_cap_sorted (store : List AnalysisDoc) (uid : String) :
    (∀ a ∈ get_analyses store uid, a.user_id = uid) ∧
    (get_analyses store uid).length ≤ 100 ∧
    List.Pairwise (fun x y => y.created_at ≤ x.created_at)
      (get_analyses store uid) := by
  refine ⟨?_, ?_, ?_⟩
  · intro a ha
    have h1 : a ∈ sortDesc (store.filter (fun a => a.user_id == uid)) :=
      List.take_subset 100 _ ha
    have h2 := (mem_sortDesc _ _).1 h1
    have h3 := (List.mem_filter.1 h2).2
    simpa using h3
  · simpa [get_analyses] using
      List.length_take_le 100 (sortDesc (store.filter (fun a => a.user_id == uid)))
  · exact List.Pairwise.sublist (List.take_sublist 100 _) (pairwise_sortDesc _)

/-- Witness for C3's amended theorem at a concrete store. -/
theorem get_analyses_user_cap_sorted_witness :
    exDocA.user_id = "u" ∧ (get_analyses [exDocA] "u").length ≤ 100 :=
  ⟨(get_analyses_user_cap_sorted [exDocA] "u").1 exDocA (by decide),
   (get_analyses_user_cap_sorted [exDocA] "u").2.1⟩

/-- C4: on a successful `analyze_image`, the persisted record carries exactly
the first 1000 characters of the re-encoded image's base64 text as its image
payload, the response is the persisted record with the image payload excluded
(the response shape has no such field), and every remaining response field
equals the corresponding persisted field. -/
theorem analyze_image_strips_payload (store : List AnalysisDoc)
    (uid newId img ai : String) (now : Nat) :
    (analyze_image store uid newId (Except.ok img) (Except.ok ai) now).1 =
      store ++ [mkImageAnalysis uid newId ai img now] ∧
    (analyze_image store uid newId (Except.ok img) (Except.ok ai) now).2 =
      Except.ok (responseOf (mkImageAnalysis uid newId ai img now)) ∧
    (mkImageAnalysis uid newId ai img now).image_data =
      some (img.take 1000) ∧
    (∀ a : AnalysisDoc,
      (responseOf a).id = a.id ∧ (responseOf a).user_id = a.user_id ∧
      (responseOf a).analysis_type = a.analysis_type ∧
      (responseOf a).result = a.result ∧
      (responseOf a).risk_level = a.risk_level ∧
      (responseOf a).recommendations = a.recommendations ∧
      (responseOf a).created_at = a.created_at) :=
  ⟨rfl, rfl, rfl, fun _ => ⟨rfl, rfl, rfl, rfl, rfl, rfl, rfl⟩⟩

lemma append_singleton_ne (store : List AnalysisDoc) (doc : AnalysisDoc) :
    store ++ [doc] ≠ store := by
  intro h
  have := congrArg List.length h
  simp at this

/-- C5: if image decode or the AI call fails, both endpoints leave the
analysis store unchanged and surface a 500 whose detail is the fixed prefix
followed by the original error message; a record is appended iff every step
succeeds. -/
theorem ai_failure_not_persisted (store : List AnalysisDoc)
    (uid newId img e : String) (d : RiskAssessmentRequest)
    (dec ai : Except String String) (now : Nat) :
    analyze_image store uid newId (Except.ok img) (Except.error e) now =
      (store, Except.error ⟨500, "Error analyzing image: " ++ e⟩) ∧
    analyze_image store uid newId (Except.error e) ai now =
      (store, Except.error ⟨500, "Error analyzing image: " ++ e⟩) ∧
    risk_assessment store uid newId d (Except.error e) now =
      (store, Except.error ⟨500, "Error in risk assessment: " ++ e⟩) ∧
    ((∃ doc, (analyze_image store uid newId dec ai now).1 = store ++ [doc]) ↔
      (∃ i a, dec = Except.ok i ∧ ai = Except.ok a)) ∧
    ((analyze_image store uid newId dec ai now).1 = store ↔
      ¬ (∃ i a, dec = Except.ok i ∧ ai = Except.ok a)) ∧
    ((∃ doc, (risk_assessment store uid newId d ai now).1 = store ++ [doc]) ↔
      (∃ a, ai = Except.ok a)) ∧
    ((risk_assessment store uid newId d ai now).1 = store ↔
      ¬ (∃ a, ai = Except.ok a)) := by
  refine ⟨rfl, rfl, rfl, ?_, ?_, ?_, ?_⟩
  · rcases dec with e1 | i1 <;> rcases ai with e2 | a2 <;>
      simp [analyze_image, append_singleton_ne] <;>
      intro doc h <;> exact absurd h.symm (append_singleton_ne store doc)
  · rcases dec with e1 | i1 <;> rcases ai with e2 | a2 <;>
      simp [analyze_image, append_singleton_ne]
  · rcases ai with e2 | a2 <;>
      simp [risk_assessment, append_singleton_ne]
  · rcases ai with e2 | a2 <;> simp [risk_assessment, append_singleton_ne]

lemma matchAt_append_left (p q s : List Char)
    (h : matchAt (p ++ q) s = true) : matchAt p s = true := by
  induction p generalizing s with
  | nil => rfl
  | cons c cs ih =>
      cases s with
      | nil => simp [matchAt] at h
      | cons b bs =>
          simp only [List.cons_append, matchAt, Bool.and_eq_true] at h ⊢
          exact ⟨h.1, ih bs h.2⟩

lemma occursIn_append_left (p q s : List Char)
    (h : occursIn (p ++ q) s = true) : occursIn p s = true := by
  induction s with
  | nil =>
      simp only [occursIn] at h ⊢
      exact matchAt_append_left p q [] h
  | cons c cs ih =>
      simp only [occursIn, Bool.or_eq_true] at h ⊢
      rcases h with h | h
      · exact Or.inl (matchAt_append_left _ _ _ h)
      · exact Or.inr (ih h)

lemma containsSubstr_moderate (s : String)
    (h : containsSubstr s "moderate risk" = true) :
    containsSubstr s "moderate" = true := by
  have hd : ("moderate risk").data = ("moderate").data ++ (" risk").data := by
    decide
  unfold containsSubstr at h ⊢
  rw [hd] at h
  exact occursIn_append_left _ _ _ h

/-- C6: the risk level `analyze_image` derives from the AI reply is exactly
the claimed case-insensitive scan ("high risk"/"high-risk" → high, else
"moderate" → moderate, else low), and it is always one of the three levels. -/
theorem image_risk_level_parse (reply : String) :
    parseImageRiskLevel reply = specImageRiskLevel reply ∧
    (parseImageRiskLevel reply = "high" ∨
     parseImageRiskLevel reply = "moderate" ∨
     parseImageRiskLevel reply = "low") := by
  constructor
  · unfold parseImageRiskLevel specImageRiskLevel
    by_cases h1 : (containsSubstr (pyLower reply) "high risk"
        || containsSubstr (pyLower reply) "high-risk") = true
    · simp [h1]
    · by_cases h2 : containsSubstr (pyLower reply) "moderate" = true
      · simp [h1, h2]
      · have h3 : containsSubstr (pyLower reply) "moderate risk" = false := by
          cases hc : containsSubstr (pyLower reply) "moderate risk"
          · rfl
          · exact absurd (containsSubstr_moderate _ hc)
              (by simp [h2])
        simp [h1, h2, h3]
  · unfold parseImageRiskLevel
    dsimp only
    split_ifs <;> simp

lemma hash_password_inj (p q : String) (h : hash_password p = hash_password q) :
    p = q := by
  unfold hash_password at h
  have hd := congrArg String.data h
  simp [String.data_append] at hd
  exact String.ext hd

lemma verify_password_wrong (p q : String) (h : p ≠ q) :
    verify_password p (hash_password q) = false := by
  unfold verify_password
  simp only [beq_eq_false_iff_ne, ne_eq]
  intro he
  exact h (hash_password_inj p q he)

/-- C8: registering an already-present email is a 400 conflict that inserts
no user; login with an unknown email, or with a password whose hash does not
match (in particular any wrong password), is a 401; and a tampered (signature
mismatch) or expired bearer token is rejected with 401 by the authentication
dependency every protected route runs. -/
theorem auth_error_paths (users : List UserDoc) (data : UserCreate)
    (newId : String) (now tnow : Nat) (email1 email2 password p q : String)
    (u : UserDoc) (sign : TokenPayload → Nat) (t1 t2 : Token) :
    (users.any (fun v => v.email == data.email) = true →
      register users data newId now =
        (users, Except.error ⟨400, "Email already registered"⟩)) ∧
    (users.find? (fun v => v.email == email1) = some u →
      verify_password password u.password = false →
      login users email1 password =
        Except.error ⟨401, "Invalid credentials"⟩) ∧
    (users.find? (fun v => v.email == email2) = none →
      login users email2 password =
        Except.error ⟨401, "Invalid credentials"⟩) ∧
    (p ≠ q → verify_password p (hash_password q) = false) ∧
    (t1.sig ≠ sign t1.payload →
      get_current_user sign t1 tnow = Except.error ⟨401, "Invalid token"⟩) ∧
    (t2.sig = sign t2.payload → t2.payload.exp ≤ tnow →
      get_current_user sign t2 tnow = Except.error ⟨401, "Token expired"⟩) := by
  refine ⟨?_, ?_, ?_, verify_password_wrong p q, ?_, ?_⟩
  · intro h
    simp [register, h]
  · intro hf hv
    simp [login, hf, hv]
  · intro hf
    simp [login, hf]
  · intro hs
    simp [get_current_user, jwt_decode, hs]
  · intro hs he
    simp [get_current_user, jwt_decode, hs, he]

/-- Witness for C8 at a concrete store, credentials and tokens. -/
theorem auth_error_paths_witness :
    register [exUser] exUserCreate "u2" 1 =
      ([exUser], Except.error ⟨400, "Email already registered"⟩) ∧
    login [exUser] "a@example.com" "wrong" =
      Except.error ⟨401, "Invalid credentials"⟩ ∧
    login [exUser] "b@example.com" "pw" =
      Except.error ⟨401, "Invalid credentials"⟩ ∧
    verify_password "wrong" (hash_password "pw") = false ∧
    get_current_user exSign exTokenTampered 20 =
      Except.error ⟨401, "Invalid token"⟩ ∧
    get_current_user exSign exTokenSigned 20 =
      Except.error ⟨401, "Token expired"⟩ := by
  have h := auth_error_paths [exUser] exUserCreate "u2" 1 20 "a@example.com"
    "b@example.com" "wrong" "wrong" "pw" exUser exSign exTokenTampered
    exTokenSigned
  exact ⟨h.1 (by decide), h.2.1 (by decide) (by decide), h.2.2.1 (by decide),
    h.2.2.2.1 (by decide), h.2.2.2.2.1 (by decide),
    h.2.2.2.2.2 (by decide) (by decide)⟩

set_option maxRecDepth 4000 in
/-- Counterexample to C9 as stated: `first_pregnancy_age` present with value 0
is rendered as the placeholder — the prompt differs from the claimed
rendering, and coincides with the prompt for the field absent. -/
theorem risk_prompt_placeholder_counterexample :
    exReq0.first_pregnancy_age = some 0 ∧
    riskPrompt exReq0 ≠ specRiskPrompt exReq0 ∧
    riskPrompt exReq0 =
      riskPrompt { exReq0 with first_pregnancy_age := none } := by
  refine ⟨rfl, ?_, rfl⟩
  decide

/-- C9 (amended): the prompt embeds every input field; each optional field is
rendered as the fixed placeholder exactly when it is missing or falsy (the
integer 0, the empty string), and as its actual value otherwise. -/
theorem risk_prompt_renders_fields (d : RiskAssessmentRequest) :
    riskPrompt d = specRiskPromptAmended d ∧
    (∀ v : Option Int, pyOrIntNA v = amendedIntRender v) ∧
    (∀ v : Option String, pyOrStrNA v = amendedStrRender v) ∧
    (∀ n : Int, n ≠ 0 → pyOrIntNA (some n) = toString n) ∧
    (∀ s : String, s ≠ "" → pyOrStrNA (some s) = s) := by
  have hint : ∀ v : Option Int, pyOrIntNA v = amendedIntRender v := by
    intro v
    rcases v with _ | n
    · rfl
    · unfold pyOrIntNA amendedIntRender
      by_cases h : n = 0 <;> simp [h]
  have hstr : ∀ v : Option String, pyOrStrNA v = amendedStrRender v := by
    intro v
    rcases v with _ | s
    · rfl
    · unfold pyOrStrNA amendedStrRender
      by_cases h : s = "" <;> simp [h]
  refine ⟨?_, hint, hstr, ?_, ?_⟩
  · unfold riskPrompt specRiskPromptAmended
    rw [hint, hint, hstr]
  · intro n hn
    simp [pyOrIntNA, hn]
  · intro s hs
    simp [pyOrStrNA, hs]

/-- Witness for C9's amended theorem at a concrete input. -/
theorem risk_prompt_renders_fields_witness :
    riskPrompt exReq1 = specRiskPromptAmended exReq1 ∧
    pyOrIntNA (some 25) = toString (25 : Int) ∧
    pyOrStrNA (some "Dense") = "Dense" := by
  have h := risk_prompt_renders_fields exReq1
  exact ⟨h.1, h.2.2.2.1 25 (by decide), h.2.2.2.2 "Dense" (by decide)⟩

end BreastCancer
